import Mathlib

/-!
Verification of the christmas-tree repository's gesture classifier and morph
animation engine against its specification.

Shallow embedding conventions:
* `src/components/GestureController.tsx` — the classifier state machine and
  feature extractor.  Landmark coordinates and derived scalars are embedded
  as exact rationals (`ℚ`); the run counters are `ℕ` (they are only ever set
  to 0 or incremented in the source).
* The source's `onModeChange` callback round-trips through the owner
  component back into `lastModeRef` (`useEffect` on `currentMode`); on the
  single-threaded event loop this is modelled as a synchronous update of the
  committed mode inside the frame step.
* `src/components/Foliage.tsx` / `src/components/Ornaments.tsx` — progress
  and blend arithmetic is embedded generically over a linear ordered field
  and instantiated at `ℚ` for executable claims; the parts that use
  `Math.sin` / `Math.cos` / `Math.sqrt` / `π` are embedded over `ℝ`.
* `Math.hypot dx dy > k * Math.hypot bx by` (all values non-negative) is
  embedded by the equivalent squared comparison where an executable
  definition is needed; the bridge to the square-root form is proved.
-/

namespace ChristmasTree

/-- TreeMode enum from src/types: `CHAOS` is the scatter-equivalent mode,
`FORMED` the assembled tree. -/
inductive TreeMode where
  | CHAOS
  | FORMED
deriving DecidableEq, Repr

/-- Constant `CONFIDENCE_THRESHOLD = 5` (GestureController.tsx line 27). -/
def CONFIDENCE_THRESHOLD : ℕ := 5

/-- The classifier's mutable refs: `openFrames`, `closedFrames`,
`lastModeRef` (GestureController.tsx lines 24–26). -/
structure ClassifierState where
  openFrames : ℕ
  closedFrames : ℕ
  lastMode : TreeMode
deriving DecidableEq, Repr

/-- Counter/commit part of `detectGesture` (GestureController.tsx lines
142–155), given the frame's `extendedFingers` count.  Returns the new state
and the mode transition emitted this frame, if any.  A commit updates
`lastMode` (the `onModeChange → currentMode → lastModeRef` round trip,
synchronous on the single-threaded loop). -/
def detectGestureStep (s : ClassifierState) (extendedFingers : ℕ) :
    ClassifierState × Option TreeMode :=
  if 4 ≤ extendedFingers then
    let s1 : ClassifierState :=
      { s with openFrames := s.openFrames + 1, closedFrames := 0 }
    if CONFIDENCE_THRESHOLD < s1.openFrames ∧ s1.lastMode ≠ TreeMode.CHAOS then
      ({ s1 with lastMode := TreeMode.CHAOS }, some TreeMode.CHAOS)
    else
      (s1, none)
  else if extendedFingers ≤ 1 then
    let s1 : ClassifierState :=
      { s with closedFrames := s.closedFrames + 1, openFrames := 0 }
    if CONFIDENCE_THRESHOLD < s1.closedFrames ∧ s1.lastMode ≠ TreeMode.FORMED then
      ({ s1 with lastMode := TreeMode.FORMED }, some TreeMode.FORMED)
    else
      (s1, none)
  else
    (s, none)

/-- Run `detectGesture` over a list of per-frame `extendedFingers` counts,
collecting the per-frame emitted transitions. -/
def runDetect (s : ClassifierState) (cs : List ℕ) :
    ClassifierState × List (Option TreeMode) :=
  match cs with
  | [] => (s, [])
  | c :: rest =>
      let p := detectGestureStep s c
      let q := runDetect p.1 rest
      (q.1, p.2 :: q.2)

/-- The per-frame states visited while running `detectGesture` over a list
of `extendedFingers` counts (state after each frame). -/
def runDetectStates (s : ClassifierState) (cs : List ℕ) : List ClassifierState :=
  match cs with
  | [] => []
  | c :: rest =>
      let p := detectGestureStep s c
      p.1 :: runDetectStates p.1 rest

/-- Function `handleNoHand` (GestureController.tsx lines 100–109), restricted
to the classifier state: both counters reset to 0, `lastMode` untouched. -/
def handleNoHand (s : ClassifierState) : ClassifierState :=
  { s with openFrames := 0, closedFrames := 0 }

/-- One frame of input to the classifier as seen by `predictWebcam`:
either no hand was detected, or at least one hand with the first hand's
`extendedFingers` count. -/
inductive FrameInput where
  | noHand
  | hand (extendedFingers : ℕ)

/-- The classifier-state part of one `predictWebcam` frame
(GestureController.tsx lines 89–95): dispatch to `handleNoHand` or
`detectGesture`. -/
def classifierFrame (s : ClassifierState) (f : FrameInput) : ClassifierState :=
  match f with
  | FrameInput.noHand => handleNoHand s
  | FrameInput.hand c => (detectGestureStep s c).1

/-- Run the classifier over a sequence of frames. -/
def runClassifier (s : ClassifierState) (fs : List FrameInput) : ClassifierState :=
  fs.foldl classifierFrame s

/-- The counter invariant claimed by the spec: at most one of the two run
counters is non-zero. -/
def countersExclusive (s : ClassifierState) : Prop :=
  s.openFrames = 0 ∨ s.closedFrames = 0

instance (s : ClassifierState) : Decidable (countersExclusive s) := by
  unfold countersExclusive; infer_instance

/-- Everything `predictWebcam` reports on a frame, beyond the classifier
state: the locally stored hand position (`setHandPos`), the
`onHandPosition` callback arguments, the `onTwoHandsDetected` flag, and the
emitted mode transition. -/
structure FrameOutputs where
  handPos : Option (ℚ × ℚ)
  reportedPos : ℚ × ℚ
  reportedDetected : Bool
  twoHands : Bool
  emitted : Option TreeMode
deriving DecidableEq, Repr

/-- One MediaPipe hand landmark: normalized x, y and relative depth z,
embedded as exact rationals. -/
structure Landmark where
  x : ℚ
  y : ℚ
  z : ℚ
deriving DecidableEq, Repr

/-- A detected hand: 21 labeled landmarks, indexed as in MediaPipe. -/
abbrev LandmarkSet := Fin 21 → Landmark

/-- Squared planar distance on the (x, y) coordinates.  The source computes
`Math.hypot (a.x - b.x) (a.y - b.y)`; its comparisons against a scaled second
hypot are embedded by the equivalent comparison of squares. -/
def dist2xy (a b : Landmark) : ℚ :=
  (a.x - b.x) ^ 2 + (a.y - b.y) ^ 2

/-- Squared full 3D distance (used only to state the spec's reading of
"Euclidean distance" between the 3D landmark points; the source never
computes this). -/
def dist2xyz (a b : Landmark) : ℚ :=
  (a.x - b.x) ^ 2 + (a.y - b.y) ^ 2 + (a.z - b.z) ^ 2

/-- Array `fingerTips = [8, 12, 16, 20]` (GestureController.tsx line 135). -/
def fingerTips : Fin 4 → Fin 21 :=
  fun i => match i with
  | 0 => 8
  | 1 => 12
  | 2 => 16
  | 3 => 20

/-- Array `fingerBases = [5, 9, 13, 17]` (GestureController.tsx line 135). -/
def fingerBases : Fin 4 → Fin 21 :=
  fun i => match i with
  | 0 => 5
  | 1 => 9
  | 2 => 13
  | 3 => 17

/-- Loop-body test of `detectGesture` (GestureController.tsx lines 138–140):
`distTip > distBase * 1.5` with `distTip = hypot(tip.x - wrist.x, tip.y -
wrist.y)` and `distBase` analogous.  Both hypots are non-negative, so the
comparison is embedded by the equivalent squared form
`distTip² > distBase² * (3/2)²`. -/
def fingerExtendedB (lm : LandmarkSet) (i : Fin 4) : Bool :=
  decide (dist2xy (lm (fingerTips i)) (lm 0) >
    dist2xy (lm (fingerBases i)) (lm 0) * (9 / 4))

/-- The `extendedFingers` counter loop of `detectGesture`
(GestureController.tsx lines 136–141). -/
def extendedFingers (lm : LandmarkSet) : ℕ :=
  (List.finRange 4).foldl (fun n i => if fingerExtendedB lm i then n + 1 else n) 0

/-- Palm center: mean of landmarks 0, 5, 9, 13, 17 per coordinate
(GestureController.tsx lines 131–132). -/
def palmCenter (lm : LandmarkSet) : ℚ × ℚ :=
  (((lm 0).x + (lm 5).x + (lm 9).x + (lm 13).x + (lm 17).x) / 5,
   ((lm 0).y + (lm 5).y + (lm 9).y + (lm 13).y + (lm 17).y) / 5)

/-- One frame of `predictWebcam` (GestureController.tsx lines 84–98) on a
list of detected hands: no hands dispatches to `handleNoHand` (status reset,
`onHandPosition(0.5, 0.5, false)`, `onTwoHandsDetected(false)`); otherwise
the two-hand flag is reported and `detectGesture` runs on the first hand. -/
def predictWebcamStep (s : ClassifierState) (hands : List LandmarkSet) :
    ClassifierState × FrameOutputs :=
  match hands with
  | [] =>
      (handleNoHand s,
        { handPos := none, reportedPos := (1/2, 1/2), reportedDetected := false,
          twoHands := false, emitted := none })
  | h :: _ =>
      let palm := palmCenter h
      let p := detectGestureStep s (extendedFingers h)
      (p.1,
        { handPos := some palm, reportedPos := palm, reportedDetected := true,
          twoHands := decide (2 ≤ hands.length), emitted := p.2 })

section FieldMath

variable {α : Type} [LinearOrderedField α]

/-- GLSL `clamp(x, lo, hi) = min(max(x, lo), hi)`. -/
def clampG (x lo hi : α) : α := min (max x lo) hi

/-- GLSL `mix(x, y, a) = x * (1 - a) + y * a`. -/
def mix (x y a : α) : α := x * (1 - a) + y * a

/-- THREE.MathUtils / Vector3 `lerp(x, y, t) = x + (y - x) * t`. -/
def lerp (x y t : α) : α := x + (y - x) * t

/-- The shader's `cubicInOut` easing (Foliage.tsx lines 22–26):
`t < 0.5 ? 4 t³ : 1 - (-2 t + 2)³ / 2`. -/
def cubicInOut (t : α) : α :=
  if t < 1 / 2 then 4 * t ^ 3 else 1 - (-2 * t + 2) ^ 3 / 2

/-- Morph target implied by the mode (Foliage.tsx line 113):
`mode === TreeMode.FORMED ? 1 : 0`. -/
def modeTarget (m : TreeMode) : α :=
  if m = TreeMode.FORMED then 1 else 0

/-- Foliage group progress update (Foliage.tsx line 114):
`progress = lerp(progress, target, delta * 1.5)`. -/
def updateProgress (p : α) (m : TreeMode) (delta : α) : α :=
  lerp p (modeTarget m) (delta * (3 / 2))

/-- Per-element effective progress (Foliage.tsx line 29):
`clamp(uProgress * 1.2 - aRandom * 0.2, 0.0, 1.0)`. -/
def localProgress (uProgress aRandom : α) : α :=
  clampG (uProgress * (6 / 5) - aRandom * (1 / 5)) 0 1

/-- A 3-component vector. -/
@[ext]
structure Vec3 (β : Type) where
  x : β
  y : β
  z : β

/-- Componentwise GLSL `mix` of two vectors. -/
def mix3 (a b : Vec3 α) (t : α) : Vec3 α :=
  ⟨mix a.x b.x t, mix a.y b.y t, mix a.z b.z t⟩

/-- THREE `Vector3.lerp`, componentwise. -/
def lerp3 (a b : Vec3 α) (t : α) : Vec3 α :=
  ⟨lerp a.x b.x t, lerp a.y b.y t, lerp a.z b.z t⟩

/-- Componentwise vector addition. -/
def vadd3 (a b : Vec3 α) : Vec3 α :=
  ⟨a.x + b.x, a.y + b.y, a.z + b.z⟩

end FieldMath

/-- Iterated group-progress update: `n` frames at mode `m`, each with the
same per-frame `delta`. -/
def runProgress (p : ℚ) (m : TreeMode) (delta : ℚ) : ℕ → ℚ
  | 0 => p
  | n + 1 => updateProgress (runProgress p m delta n) m delta

/-- Round trip of the Foliage progress: starting settled at progress 0
(mode `CHAOS`), dwell `n` frames at `FORMED`, then `n` frames back at
`CHAOS`, uniform per-frame `delta`. -/
def roundTripProgress (delta : ℚ) (n : ℕ) : ℚ :=
  runProgress (runProgress 0 TreeMode.FORMED delta n) TreeMode.CHAOS delta n

/-- Golden ratio `(1 + √5) / 2` (`goldenRatio` in Foliage.tsx line 80). -/
noncomputable def goldenPhi : ℝ := (1 + Real.sqrt 5) / 2

/-- Cone height `height = 12` (Foliage.tsx line 81). -/
def foliageHeight : ℝ := 12

/-- Cone base radius `maxRadius = 5` (Foliage.tsx line 82). -/
def foliageMaxRadius : ℝ := 5

/-- Formed-layout position of foliage element `i` out of `count`
(Foliage.tsx lines 92–98): `yNorm = i / count`, `y = yNorm * height`,
`currentRadius = maxRadius * (1 - yNorm)`,
`angle = 2π * goldenRatio * i`, position
`(cos(angle) * currentRadius, y, sin(angle) * currentRadius)`. -/
noncomputable def foliageTargetPos (count i : ℕ) : Vec3 ℝ :=
  let yNorm : ℝ := (i : ℝ) / (count : ℝ)
  let y := yNorm * foliageHeight
  let currentRadius := foliageMaxRadius * (1 - yNorm)
  let angle := 2 * Real.pi * goldenPhi * (i : ℝ)
  ⟨Real.cos angle * currentRadius, y, Real.sin angle * currentRadius⟩

/-- The claim's phyllotaxis description, written from its own words: element
`i` of `N` sits at cone height `(i/N)·H`, radius `R·(1 − i/N)`, angular
position `i·(2π·φ)` with `φ` the golden ratio, i.e.
`x = cos(angle)·radius`, `y = height`, `z = sin(angle)·radius`. -/
noncomputable def specFormedLayout (N i : ℕ) : Vec3 ℝ :=
  ⟨Real.cos ((i : ℝ) * (2 * Real.pi * goldenPhi)) *
      (foliageMaxRadius * (1 - (i : ℝ) / (N : ℝ))),
   ((i : ℝ) / (N : ℝ)) * foliageHeight,
   Real.sin ((i : ℝ) * (2 * Real.pi * goldenPhi)) *
      (foliageMaxRadius * (1 - (i : ℝ) / (N : ℝ)))⟩

/-- Pure positional blend of the Foliage vertex shader (Foliage.tsx lines
29–32), before the settle jitter: `mix(aChaosPos, aTargetPos,
cubicInOut(localProgress))`. -/
noncomputable def foliageBlendPos (uProgress : ℝ) (aChaosPos aTargetPos : Vec3 ℝ)
    (aRandom : ℝ) : Vec3 ℝ :=
  mix3 aChaosPos aTargetPos (cubicInOut (localProgress uProgress aRandom))

/-- Full vertex position of the Foliage shader (Foliage.tsx lines 29–37):
the blend, plus — only when `easedProgress > 0.9` — the in-place settle
jitter `newPos.x += sin(uTime*2 + newPos.y)*0.05;
newPos.z += cos(uTime*1.5 + newPos.y)*0.05`. -/
noncomputable def foliageVertexPos (uProgress uTime : ℝ)
    (aChaosPos aTargetPos : Vec3 ℝ) (aRandom : ℝ) : Vec3 ℝ :=
  let easedProgress := cubicInOut (localProgress uProgress aRandom)
  let newPos := mix3 aChaosPos aTargetPos easedProgress
  if easedProgress > 0.9 then
    ⟨newPos.x + Real.sin (uTime * 2 + newPos.y) * 0.05,
     newPos.y,
     newPos.z + Real.cos (uTime * 1.5 + newPos.y) * 0.05⟩
  else newPos

/-- The settle-jitter offset of the Foliage shader, as a standalone additive
term: zero unless `easedProgress > 0.9`, and depending only on the time and
the blended y-coordinate. -/
noncomputable def foliageSettleOffset (uProgress uTime : ℝ)
    (aChaosPos aTargetPos : Vec3 ℝ) (aRandom : ℝ) : Vec3 ℝ :=
  let easedProgress := cubicInOut (localProgress uProgress aRandom)
  let newPos := mix3 aChaosPos aTargetPos easedProgress
  if easedProgress > 0.9 then
    ⟨Real.sin (uTime * 2 + newPos.y) * 0.05, 0,
     Real.cos (uTime * 1.5 + newPos.y) * 0.05⟩
  else ⟨0, 0, 0⟩

/-- Euclidean distance of two vectors (THREE `Vector3.distanceTo`). -/
noncomputable def dist3 (a b : Vec3 ℝ) : ℝ :=
  Real.sqrt ((a.x - b.x) ^ 2 + (a.y - b.y) ^ 2 + (a.z - b.z) ^ 2)

/-- Per-instance data of an ornament relevant to its position update
(Ornaments.tsx `InstanceData`). -/
structure OrnamentData where
  chaosPos : Vec3 ℝ
  targetPos : Vec3 ℝ
  speed : ℝ

/-- Position part of the Ornaments `updateMesh` frame step (Ornaments.tsx
lines 107–118): the stored position is lerped toward the destination by
`delta * speed * 2.0`; then, when formed and within `0.2` of the target,
the sinusoidal settle jitter `sin(time*2 + chaosPos.x) * 0.005` is added to
the stored y — the result is written back to the instance matrix. -/
noncomputable def ornamentPosStep (mode : TreeMode) (d : OrnamentData)
    (time delta : ℝ) (pos : Vec3 ℝ) : Vec3 ℝ :=
  let dest := if mode = TreeMode.FORMED then d.targetPos else d.chaosPos
  let p1 := lerp3 pos dest (delta * d.speed * 2)
  if mode = TreeMode.FORMED ∧ dist3 p1 d.targetPos < 0.2 then
    ⟨p1.x, p1.y + Real.sin (time * 2 + d.chaosPos.x) * 0.005, p1.z⟩
  else p1

/-- The same frame step with the jitter line removed: only the lerp toward
the destination.  This is the "underlying blended position" of the claim. -/
noncomputable def ornamentPosStepNoJitter (mode : TreeMode) (d : OrnamentData)
    (delta : ℝ) (pos : Vec3 ℝ) : Vec3 ℝ :=
  let dest := if mode = TreeMode.FORMED then d.targetPos else d.chaosPos
  lerp3 pos dest (delta * d.speed * 2)

lemma runDetect_append_snd (xs : List ℕ) :
    ∀ (s : ClassifierState) (ys : List ℕ),
      (runDetect s (xs ++ ys)).2 =
        (runDetect s xs).2 ++ (runDetect (runDetect s xs).1 ys).2 := by
  induction xs with
  | nil => intro s ys; rfl
  | cons c rest ih =>
      intro s ys
      simp only [List.cons_append, runDetect, List.append_eq, ih]

lemma chaos_no_retrigger (ks : List ℕ) :
    ∀ s : ClassifierState, s.lastMode = TreeMode.CHAOS → (∀ c ∈ ks, 4 ≤ c) →
      (runDetect s ks).2 = List.replicate ks.length none ∧
      (runDetect s ks).1.lastMode = TreeMode.CHAOS := by
  induction ks with
  | nil => intro s hs _; exact ⟨rfl, hs⟩
  | cons c rest ih =>
      intro s hs hall
      have hc : 4 ≤ c := hall c (List.mem_cons_self _ _)
      have hstep : detectGestureStep s c =
          ({ s with openFrames := s.openFrames + 1, closedFrames := 0 }, none) := by
        simp [detectGestureStep, hc, hs]
      have hrest := ih { s with openFrames := s.openFrames + 1, closedFrames := 0 }
        hs (fun d hd => hall d (List.mem_cons_of_mem _ hd))
      refine ⟨?_, ?_⟩
      · simp only [runDetect, hstep, List.length_cons, List.replicate_succ]
        exact congrArg (List.cons none) hrest.1
      · simp only [runDetect, hstep]
        exact hrest.2

/-- C1: starting with counters (0, 0) and committed mode distinct from the
scatter-equivalent `CHAOS` (i.e. `FORMED`), the extendedFingerCount sequence
[4,4,4,4,4,4] commits the mode to `CHAOS` exactly once, on the 6th frame —
the first frame on which openRun (= 6) exceeds the threshold 5 — and any
further frames whose count is ≥ 4 emit no additional transition. -/
theorem C1_open_commit_once (ks : List ℕ) (h : ∀ c ∈ ks, 4 ≤ c) :
    (runDetect ⟨0, 0, TreeMode.FORMED⟩ ([4, 4, 4, 4, 4, 4] ++ ks)).2 =
      [none, none, none, none, none, some TreeMode.CHAOS] ++
        List.replicate ks.length none := by
  have h2 : (runDetect ⟨0, 0, TreeMode.FORMED⟩ [4, 4, 4, 4, 4, 4]).2 =
      [none, none, none, none, none, some TreeMode.CHAOS] := by decide
  have h1 : (runDetect ⟨0, 0, TreeMode.FORMED⟩ [4, 4, 4, 4, 4, 4]).1 =
      ⟨6, 0, TreeMode.CHAOS⟩ := by decide
  rw [runDetect_append_snd, h2, h1,
    (chaos_no_retrigger ks ⟨6, 0, TreeMode.CHAOS⟩ rfl h).1]

/-- Witness for C1 at the concrete continuation [5, 4]. -/
theorem C1_open_commit_once_witness :
    (∀ c ∈ ([5, 4] : List ℕ), 4 ≤ c) ∧
    (runDetect ⟨0, 0, TreeMode.FORMED⟩ ([4, 4, 4, 4, 4, 4] ++ [5, 4])).2 =
      [none, none, none, none, none, some TreeMode.CHAOS] ++
        List.replicate ([5, 4] : List ℕ).length none :=
  ⟨by decide, C1_open_commit_once [5, 4] (by decide)⟩

/-- C2: from mode `CHAOS` with counters (0, 0), the sequence
[0,0,0,3,0,0,0,0,0] yields the closedRun trace [1,2,3,3,4,5,6,7,8] (the
ambiguous 3 holds both counters: openRun stays 0 throughout), and the mode
commits to `FORMED` exactly once, at the frame where closedRun first
exceeds 5. -/
theorem C2_ambiguous_hold_trace :
    (runDetectStates ⟨0, 0, TreeMode.CHAOS⟩ [0, 0, 0, 3, 0, 0, 0, 0, 0]).map
        ClassifierState.closedFrames = [1, 2, 3, 3, 4, 5, 6, 7, 8] ∧
    (runDetectStates ⟨0, 0, TreeMode.CHAOS⟩ [0, 0, 0, 3, 0, 0, 0, 0, 0]).map
        ClassifierState.openFrames = List.replicate 9 0 ∧
    (runDetect ⟨0, 0, TreeMode.CHAOS⟩ [0, 0, 0, 3, 0, 0, 0, 0, 0]).2 =
      [none, none, none, none, none, none, some TreeMode.FORMED, none, none] ∧
    (runDetect ⟨0, 0, TreeMode.CHAOS⟩ [0, 0, 0, 3, 0, 0, 0, 0, 0]).2.findIdx
        (fun o => o.isSome) =
      ((runDetectStates ⟨0, 0, TreeMode.CHAOS⟩ [0, 0, 0, 3, 0, 0, 0, 0, 0]).map
        ClassifierState.closedFrames).findIdx (fun n => decide (5 < n)) := by
  decide

/-- C3: a frame with zero detected hands resets both run counters to 0,
reports the hand position as undetected (stored position cleared, callback
`(0.5, 0.5, false)`), reports the two-hand flag as false, emits no mode
transition, and leaves the committed mode unchanged.  The step is a total
function: no input raises an error. -/
theorem C3_no_hand_reset (s : ClassifierState) :
    (predictWebcamStep s []).1.openFrames = 0 ∧
    (predictWebcamStep s []).1.closedFrames = 0 ∧
    (predictWebcamStep s []).1.lastMode = s.lastMode ∧
    (predictWebcamStep s []).2 =
      { handPos := none, reportedPos := (1/2, 1/2), reportedDetected := false,
        twoHands := false, emitted := none } :=
  ⟨rfl, rfl, rfl, rfl⟩

lemma countersExclusive_step (s : ClassifierState) (f : FrameInput)
    (h : countersExclusive s) : countersExclusive (classifierFrame s f) := by
  cases f with
  | noHand => exact Or.inr rfl
  | hand c =>
      simp only [classifierFrame, detectGestureStep]
      split
      · split
        · exact Or.inr rfl
        · exact Or.inr rfl
      · split
        · split
          · exact Or.inl rfl
          · exact Or.inl rfl
        · exact h

lemma countersExclusive_run (fs : List FrameInput) :
    ∀ s, countersExclusive s → countersExclusive (runClassifier s fs) := by
  induction fs with
  | nil => intro s h; exact h
  | cons f rest ih => intro s h; exact ih _ (countersExclusive_step s f h)

/-- C5: starting from counters (0, 0) under any initial mode, after any
sequence of per-frame classifier steps (no-hand reset, open increment,
closed increment, ambiguous hold) both counters are non-negative and at
most one of the two is non-zero. -/
theorem C5_counters_invariant (m : TreeMode) (fs : List FrameInput) :
    0 ≤ (runClassifier ⟨0, 0, m⟩ fs).openFrames ∧
    0 ≤ (runClassifier ⟨0, 0, m⟩ fs).closedFrames ∧
    countersExclusive (runClassifier ⟨0, 0, m⟩ fs) :=
  ⟨Nat.zero_le _, Nat.zero_le _, countersExclusive_run fs _ (Or.inl rfl)⟩

lemma dist2xy_nonneg (a b : Landmark) : 0 ≤ dist2xy a b := by
  unfold dist2xy; positivity

lemma sqrt_gt_ratio_iff {a b : ℝ} (hb : 0 ≤ b) :
    (3 / 2) * Real.sqrt b < Real.sqrt a ↔ b * (9 / 4) < a := by
  have h94 : Real.sqrt (9 / 4 : ℝ) = 3 / 2 := by
    rw [show (9 / 4 : ℝ) = (3 / 2) ^ 2 by norm_num,
      Real.sqrt_sq (by norm_num : (0 : ℝ) ≤ 3 / 2)]
  have h1 : Real.sqrt (b * (9 / 4)) = (3 / 2) * Real.sqrt b := by
    rw [Real.sqrt_mul hb, h94, mul_comm]
  rw [← h1, Real.sqrt_lt_sqrt_iff (mul_nonneg hb (by norm_num))]

lemma foldl_count_le (lm : LandmarkSet) (l : List (Fin 4)) :
    ∀ n : ℕ,
      l.foldl (fun n i => if fingerExtendedB lm i then n + 1 else n) n ≤
        n + l.length := by
  induction l with
  | nil => intro n; simp
  | cons i rest ih =>
      intro n
      simp only [List.foldl_cons, List.length_cons]
      by_cases h : fingerExtendedB lm i
      · rw [if_pos h]
        have := ih (n + 1)
        omega
      · rw [if_neg h]
        have := ih n
        omega

/-- C4 amended: a non-thumb finger is counted as extended exactly when the
planar (x, y) Euclidean distance from its tip to the wrist exceeds 1.5
times the planar distance from its base knuckle to the wrist (the source
uses `Math.hypot` on x and y only, ignoring z), and the resulting count is
at most 4. -/
theorem C4_planar_extension (lm : LandmarkSet) (i : Fin 4) :
    (fingerExtendedB lm i = true ↔
      (3 / 2) * Real.sqrt ((dist2xy (lm (fingerBases i)) (lm 0) : ℚ) : ℝ) <
        Real.sqrt ((dist2xy (lm (fingerTips i)) (lm 0) : ℚ) : ℝ)) ∧
    extendedFingers lm ≤ 4 := by
  constructor
  · simp only [fingerExtendedB, decide_eq_true_eq]
    rw [sqrt_gt_ratio_iff (by exact_mod_cast dist2xy_nonneg (lm (fingerBases i)) (lm 0))]
    constructor
    · intro h
      have h' := (Rat.cast_lt (K := ℝ)).mpr h
      push_cast at h'
      linarith
    · intro h
      have h' : ((dist2xy (lm (fingerBases i)) (lm 0) * (9 / 4) : ℚ) : ℝ) <
          ((dist2xy (lm (fingerTips i)) (lm 0) : ℚ) : ℝ) := by
        push_cast
        linarith
      exact_mod_cast h'
  · have := foldl_count_le lm (List.finRange 4) 0
    simpa [extendedFingers, List.length_finRange] using this

/-- A landmark set on which the claim's 3D reading fails: every landmark at
the origin except the index fingertip (landmark 8), displaced only in
depth z. -/
def lm0 : LandmarkSet := fun i => if i = 8 then ⟨0, 0, 1⟩ else ⟨0, 0, 0⟩

/-- C4 counterexample: on `lm0`, the full 3D Euclidean distance from the
index fingertip to the wrist (= 1) exceeds 1.5 times the 3D distance from
its base knuckle to the wrist (= 0), yet the code does not count the finger
as extended — the code compares distances in the (x, y) plane only. -/
theorem C4_counterexample :
    fingerExtendedB lm0 0 = false ∧
    (3 / 2) * Real.sqrt ((dist2xyz (lm0 (fingerBases 0)) (lm0 0) : ℚ) : ℝ) <
      Real.sqrt ((dist2xyz (lm0 (fingerTips 0)) (lm0 0) : ℚ) : ℝ) := by
  have e0 : ¬((0 : Fin 21) = 8) := by decide
  have e5 : ¬((5 : Fin 21) = 8) := by decide
  constructor
  · simp only [fingerExtendedB]
    rw [decide_eq_false_iff_not]
    norm_num [show fingerTips 0 = 8 from rfl, show fingerBases 0 = 5 from rfl,
      lm0, dist2xy, e0, e5]
  · have h1 : dist2xyz (lm0 (fingerTips 0)) (lm0 0) = 1 := by
      norm_num [show fingerTips 0 = 8 from rfl, lm0, dist2xyz, e0]
    have h2 : dist2xyz (lm0 (fingerBases 0)) (lm0 0) = 0 := by
      norm_num [show fingerBases 0 = 5 from rfl, lm0, dist2xyz, e0, e5]
    rw [h1, h2]
    norm_num [Real.sqrt_one, Real.sqrt_zero]

/-- C6 counterexample: with old progress 0 (inside [0, 1]), mode `FORMED`
(target 1) and elapsed frame time Δt = 1 > 0, the update
`lerp(progress, target, delta * 1.5)` produces 3/2 — beyond the target and
outside [0, 1], so the new progress does not lie strictly between the old
progress and the target: the per-frame linear lerp is not a
frame-rate-independent damped approach. -/
theorem C6_overshoot_counterexample :
    updateProgress (0 : ℚ) TreeMode.FORMED 1 = 3 / 2 ∧
    ¬ updateProgress (0 : ℚ) TreeMode.FORMED 1 ≤ 1 := by
  norm_num [updateProgress, lerp, modeTarget]

/-- C6 amended: for 0 < Δt < 2/3 (per-frame step `Δt * 1.5` strictly between
0 and 1) and old progress distinct from the target, the updated progress
lies strictly between the old progress and the target; in particular, it
stays within [0, 1] whenever the old progress is.  For Δt ≥ 2/3 the update
can overshoot (see the counterexample). -/
theorem C6_damped_approach (p δ : ℚ) (m : TreeMode) (h0 : 0 < δ) (h1 : δ < 2 / 3)
    (hp : p ≠ modeTarget m) :
    min p (modeTarget m) < updateProgress p m δ ∧
    updateProgress p m δ < max p (modeTarget m) := by
  have hup : updateProgress p m δ = p + (modeTarget m - p) * (δ * (3 / 2)) := rfl
  have ht0 : 0 < δ * (3 / 2) := by linarith
  have ht1 : δ * (3 / 2) < 1 := by linarith
  rcases lt_or_gt_of_ne hp with h | h
  · rw [min_eq_left h.le, max_eq_right h.le, hup]
    constructor
    · nlinarith [mul_pos (sub_pos.mpr h) ht0]
    · nlinarith [mul_pos (sub_pos.mpr h) (sub_pos.mpr ht1)]
  · rw [min_eq_right h.le, max_eq_left h.le, hup]
    constructor
    · nlinarith [mul_pos (sub_pos.mpr h) (sub_pos.mpr ht1)]
    · nlinarith [mul_pos (sub_pos.mpr h) ht0]

/-- Witness for C6 amended at p = 0, mode `FORMED`, Δt = 1/3. -/
theorem C6_damped_approach_witness :
    (0 < (1 / 3 : ℚ) ∧ (1 / 3 : ℚ) < 2 / 3 ∧ (0 : ℚ) ≠ modeTarget TreeMode.FORMED) ∧
    (min (0 : ℚ) (modeTarget TreeMode.FORMED) <
        updateProgress (0 : ℚ) TreeMode.FORMED (1 / 3) ∧
      updateProgress (0 : ℚ) TreeMode.FORMED (1 / 3) <
        max (0 : ℚ) (modeTarget TreeMode.FORMED)) :=
  ⟨⟨by norm_num, by norm_num, by norm_num [modeTarget]⟩,
    C6_damped_approach 0 (1 / 3) TreeMode.FORMED (by norm_num) (by norm_num)
      (by norm_num [modeTarget])⟩

lemma runProgress_formed (p δ : ℚ) :
    ∀ n : ℕ, runProgress p TreeMode.FORMED δ n =
      1 - (1 - p) * (1 - δ * (3 / 2)) ^ n := by
  intro n
  have hm : (modeTarget TreeMode.FORMED : ℚ) = 1 := rfl
  induction n with
  | zero => simp [runProgress]
  | succ k ih =>
      simp only [runProgress, ih, updateProgress, lerp, hm]
      ring

lemma runProgress_chaos (p δ : ℚ) :
    ∀ n : ℕ, runProgress p TreeMode.CHAOS δ n = p * (1 - δ * (3 / 2)) ^ n := by
  intro n
  have hm : (modeTarget TreeMode.CHAOS : ℚ) = 0 := rfl
  induction n with
  | zero => simp [runProgress]
  | succ k ih =>
      simp only [runProgress, ih, updateProgress, lerp, hm]
      ring

/-- C9 counterexample: element with chaos x = 0, target x = 10, phase 0.
Starting settled at progress 0 (mode `CHAOS`), toggling to `FORMED` for one
frame and back to `CHAOS` for one frame with equal per-frame Δt = 1/3
leaves the progress at 1/4, and the blended x-coordinate moves from 0 to
27/25 — a displacement greater than 1, not within epsilon of the original
position (and it scales with the distance between the two layouts). -/
theorem C9_roundtrip_counterexample :
    roundTripProgress (1 / 3) 1 = 1 / 4 ∧
    mix (0 : ℚ) 10 (cubicInOut (localProgress (0 : ℚ) 0)) = 0 ∧
    mix (0 : ℚ) 10 (cubicInOut (localProgress (roundTripProgress (1 / 3) 1) 0)) =
      27 / 25 ∧
    ¬ ((27 / 25 : ℚ) ≤ 1) := by
  have h : roundTripProgress (1 / 3) 1 = 1 / 4 := by
    norm_num [roundTripProgress, runProgress, updateProgress, lerp,
      show (modeTarget TreeMode.CHAOS : ℚ) = 0 from rfl,
      show (modeTarget TreeMode.FORMED : ℚ) = 1 from rfl]
  refine ⟨h, ?_, ?_, by norm_num⟩
  · norm_num [mix, cubicInOut, localProgress, clampG]
  · rw [h]
    norm_num [mix, cubicInOut, localProgress, clampG]

/-- C9 amended: the round trip is not symmetric for arbitrary dwell (see the
counterexample); what holds is a decay law: starting settled at progress 0,
after n frames at `FORMED` and n frames back at `CHAOS`, each with per-frame
Δt = δ where 0 ≤ δ·1.5 ≤ 1, the returned progress equals r·(1 − r) with
r = (1 − δ·1.5)ⁿ, hence is non-negative and at most r — so for long enough
equal dwell the progress (and with it every element's blended position)
returns within any epsilon of its settled origin. -/
theorem C9_roundtrip_decay (δ : ℚ) (n : ℕ) (h0 : 0 ≤ δ) (h1 : δ * (3 / 2) ≤ 1) :
    roundTripProgress δ n =
      (1 - δ * (3 / 2)) ^ n * (1 - (1 - δ * (3 / 2)) ^ n) ∧
    0 ≤ roundTripProgress δ n ∧
    roundTripProgress δ n ≤ (1 - δ * (3 / 2)) ^ n := by
  have hr0 : (0 : ℚ) ≤ 1 - δ * (3 / 2) := by linarith
  have hr1 : (1 : ℚ) - δ * (3 / 2) ≤ 1 := by linarith
  have hpow0 : (0 : ℚ) ≤ (1 - δ * (3 / 2)) ^ n := pow_nonneg hr0 n
  have hpow1 : (1 - δ * (3 / 2)) ^ n ≤ 1 := pow_le_one₀ hr0 hr1
  have hclosed : roundTripProgress δ n =
      (1 - δ * (3 / 2)) ^ n * (1 - (1 - δ * (3 / 2)) ^ n) := by
    unfold roundTripProgress
    rw [runProgress_chaos, runProgress_formed]
    ring
  refine ⟨hclosed, ?_, ?_⟩
  · rw [hclosed]
    exact mul_nonneg hpow0 (by linarith)
  · rw [hclosed]
    nlinarith

/-- Witness for C9 amended at δ = 1/3, n = 1. -/
theorem C9_roundtrip_decay_witness :
    ((0 : ℚ) ≤ 1 / 3 ∧ (1 / 3 : ℚ) * (3 / 2) ≤ 1) ∧
    (roundTripProgress (1 / 3) 1 =
        (1 - (1 / 3 : ℚ) * (3 / 2)) ^ 1 * (1 - (1 - (1 / 3 : ℚ) * (3 / 2)) ^ 1) ∧
      0 ≤ roundTripProgress (1 / 3) 1 ∧
      roundTripProgress (1 / 3) 1 ≤ (1 - (1 / 3 : ℚ) * (3 / 2)) ^ 1) :=
  ⟨⟨by norm_num, by norm_num⟩,
    C9_roundtrip_decay (1 / 3) 1 (by norm_num) (by norm_num)⟩

/-- C10: for every phase in [0, 1], at group progress 1 the per-element
effective progress `clamp(1.2·progress − 0.2·phase, 0, 1)` is exactly 1 and
the blend lands exactly on the formed position; at group progress 0 it is
exactly 0 and the blend is exactly the scattered position. -/
theorem C10_endpoint_coincidence (phase c t : ℚ) (h0 : 0 ≤ phase) (h1 : phase ≤ 1) :
    localProgress 1 phase = 1 ∧ localProgress 0 phase = 0 ∧
    mix c t (cubicInOut (localProgress 1 phase)) = t ∧
    mix c t (cubicInOut (localProgress 0 phase)) = c := by
  have hl1 : localProgress (1 : ℚ) phase = 1 := by
    unfold localProgress clampG
    rw [max_eq_left (by linarith), min_eq_right (by linarith)]
  have hl0 : localProgress (0 : ℚ) phase = 0 := by
    unfold localProgress clampG
    rw [max_eq_right (by linarith), min_eq_left (by linarith)]
  have hc1 : cubicInOut (1 : ℚ) = 1 := by norm_num [cubicInOut]
  have hc0 : cubicInOut (0 : ℚ) = 0 := by norm_num [cubicInOut]
  refine ⟨hl1, hl0, ?_, ?_⟩
  · rw [hl1, hc1]
    unfold mix
    ring
  · rw [hl0, hc0]
    unfold mix
    ring

/-- Witness for C10 at phase = 1/2, scattered 2, formed 3. -/
theorem C10_endpoint_coincidence_witness :
    ((0 : ℚ) ≤ 1 / 2 ∧ (1 / 2 : ℚ) ≤ 1) ∧
    (localProgress (1 : ℚ) (1 / 2) = 1 ∧ localProgress (0 : ℚ) (1 / 2) = 0 ∧
      mix (2 : ℚ) 3 (cubicInOut (localProgress (1 : ℚ) (1 / 2))) = 3 ∧
      mix (2 : ℚ) 3 (cubicInOut (localProgress (0 : ℚ) (1 / 2))) = 2) :=
  ⟨⟨by norm_num, by norm_num⟩,
    C10_endpoint_coincidence (1 / 2) 2 3 (by norm_num) (by norm_num)⟩

/-- C7: the Foliage formed layout is exactly the claim's golden-angle
phyllotaxis cone: element i of N at height (i/N)·H, radius R·(1 − i/N),
angular position i·(2π·φ) with φ = (1+√5)/2, H = 12, R = 5, and
x = cos(angle)·radius, y = height, z = sin(angle)·radius. -/
theorem C7_phyllotaxis_layout (N i : ℕ) :
    foliageTargetPos N i = specFormedLayout N i := by
  simp only [foliageTargetPos, specFormedLayout]
  rw [show 2 * Real.pi * goldenPhi * (i : ℝ) = (i : ℝ) * (2 * Real.pi * goldenPhi)
    from by ring]

/-- C8 amended (Foliage half): in the Foliage vertex shader the settle
jitter is strictly additive and stateless — the displayed vertex position
is exactly the pure blend (a function of progress and the per-element
attributes only, not of time) plus a standalone offset that is zero unless
the eased progress exceeds 0.9.  The shader recomputes the position from
the immutable attributes every frame and the group progress update reads no
position, so the underlying blend is the same with or without the jitter.
(The Ornaments half of the claim is false: see the counterexample.) -/
theorem C8_foliage_jitter_additive (uProgress uTime : ℝ) (c tg : Vec3 ℝ) (r : ℝ) :
    foliageVertexPos uProgress uTime c tg r =
      vadd3 (foliageBlendPos uProgress c tg r)
        (foliageSettleOffset uProgress uTime c tg r) := by
  simp only [foliageVertexPos, foliageBlendPos, foliageSettleOffset, vadd3]
  split_ifs with h
  · ext <;> simp
  · ext <;> simp

lemma ornamentPosStep_near (d : OrnamentData) (time delta : ℝ) (pos : Vec3 ℝ)
    (h : dist3 (lerp3 pos d.targetPos (delta * d.speed * 2)) d.targetPos < 0.2) :
    ornamentPosStep TreeMode.FORMED d time delta pos =
      ⟨(lerp3 pos d.targetPos (delta * d.speed * 2)).x,
       (lerp3 pos d.targetPos (delta * d.speed * 2)).y +
         Real.sin (time * 2 + d.chaosPos.x) * 0.005,
       (lerp3 pos d.targetPos (delta * d.speed * 2)).z⟩ := by
  simp only [ornamentPosStep, eq_self_iff_true, if_true, true_and]
  rw [if_pos h]

/-- C8 counterexample (Ornaments half): ornament with both layout positions
at the origin, speed 1, mode formed.  Starting the stored position at
(0, 0.1, 0), after one frame at time π/4 with Δt = 0.1 the settle jitter
(sin(π/2)·0.005 = 0.005 on y) is written into the stored position, so the
next frame's underlying blended position (the pure lerp toward the target)
differs between the run with the jitter and the run without it
(y = 0.068 versus y = 0.064): the jitter feeds back into the stored blend
state, contradicting the claim. -/
theorem C8_jitter_feedback_counterexample :
    (ornamentPosStepNoJitter TreeMode.FORMED ⟨⟨0, 0, 0⟩, ⟨0, 0, 0⟩, 1⟩ 0.1
        (ornamentPosStep TreeMode.FORMED ⟨⟨0, 0, 0⟩, ⟨0, 0, 0⟩, 1⟩ (Real.pi / 4) 0.1
          ⟨0, 0.1, 0⟩)).y ≠
      (ornamentPosStepNoJitter TreeMode.FORMED ⟨⟨0, 0, 0⟩, ⟨0, 0, 0⟩, 1⟩ 0.1
        (ornamentPosStepNoJitter TreeMode.FORMED ⟨⟨0, 0, 0⟩, ⟨0, 0, 0⟩, 1⟩ 0.1
          ⟨0, 0.1, 0⟩)).y := by
  have hNoJit : ∀ pos : Vec3 ℝ,
      ornamentPosStepNoJitter TreeMode.FORMED ⟨⟨0, 0, 0⟩, ⟨0, 0, 0⟩, 1⟩ 0.1 pos =
        lerp3 pos ⟨0, 0, 0⟩ (0.1 * 1 * 2) := fun pos => rfl
  have hdist : dist3 (lerp3 (⟨0, 0.1, 0⟩ : Vec3 ℝ) ⟨0, 0, 0⟩ (0.1 * 1 * 2))
      ⟨0, 0, 0⟩ < 0.2 := by
    unfold dist3 lerp3 lerp
    rw [Real.sqrt_lt' (by norm_num : (0 : ℝ) < 0.2)]
    norm_num
  have h1 : ornamentPosStep TreeMode.FORMED ⟨⟨0, 0, 0⟩, ⟨0, 0, 0⟩, 1⟩
      (Real.pi / 4) 0.1 ⟨0, 0.1, 0⟩ = ⟨0, 0.085, 0⟩ := by
    rw [ornamentPosStep_near ⟨⟨0, 0, 0⟩, ⟨0, 0, 0⟩, 1⟩ (Real.pi / 4) 0.1
      ⟨0, 0.1, 0⟩ hdist]
    ext
    · show (lerp3 (⟨0, 0.1, 0⟩ : Vec3 ℝ) ⟨0, 0, 0⟩ (0.1 * 1 * 2)).x = 0
      norm_num [lerp3, lerp]
    · show (lerp3 (⟨0, 0.1, 0⟩ : Vec3 ℝ) ⟨0, 0, 0⟩ (0.1 * 1 * 2)).y +
        Real.sin (Real.pi / 4 * 2 + 0) * 0.005 = 0.085
      rw [show Real.pi / 4 * 2 + (0 : ℝ) = Real.pi / 2 from by ring,
        Real.sin_pi_div_two]
      norm_num [lerp3, lerp]
    · show (lerp3 (⟨0, 0.1, 0⟩ : Vec3 ℝ) ⟨0, 0, 0⟩ (0.1 * 1 * 2)).z = 0
      norm_num [lerp3, lerp]
  simp only [hNoJit, h1]
  norm_num [lerp3, lerp]

end ChristmasTree
